import Mathlib

/-!
A shallow embedding of gethostname.rs (src/lib.rs): cross-platform host
name retrieval.  The operating system is modelled as an oracle structure
holding the responses of the system calls the code makes during one
invocation; each platform variant of `try_gethostname` becomes a pure
function of that oracle.  `OsString` contents are `List Nat` (raw bytes on
POSIX, UTF-16 code units on Windows); machine integers are `Int`/`Nat`
with explicit reduction modulo 2^64 at the one `as usize` cast the code
performs (release-profile wrapping arithmetic).
-/

/-- An OS error as captured by `std::io::Error::last_os_error()`: the raw
error code together with its rendered text (the `Display` output used when
the error is formatted into a panic message). -/
structure OsError where
  code : Int
  text : String
  deriving Repr, DecidableEq

/-- Oracle for one POSIX invocation of `try_gethostname`: the value
`sysconf(_SC_HOST_NAME_MAX)` returns (a C `long`), the return code of
`libc::gethostname`, the bytes that call writes at the start of the
buffer handed to it, and the thread's last OS error. -/
structure PosixOS where
  hostname_max : Int
  gethostname_rc : Int
  written : List Nat
  last_os_error : OsError
  deriving Repr, DecidableEq

/-- Oracle for one Windows invocation of `try_gethostname`: the size (in
wide characters) that the probing `GetComputerNameExW` call stores in
`buffer_size`, that probing call's return value (discarded by the code),
the return code of the second `GetComputerNameExW` call, the wide
characters that second call writes at the start of the buffer, and the
thread's last OS error. -/
structure WindowsOS where
  buffer_size : Nat
  probe_rc : Int
  returncode : Int
  written : List Nat
  last_os_error : OsError
  deriving Repr, DecidableEq

/-- `usize` is 64 bits wide on the modelled targets. -/
def USIZE_MOD : Nat := 2 ^ 64

/-- The `hostname_max as usize` cast: a C `long` reduced modulo 2^64. -/
def asUsize (n : Int) : Nat := (n % (USIZE_MOD : Int)).toNat

/-- Length of the POSIX buffer: `(hostname_max as usize) + 1`, with
wrapping `usize` addition. -/
def posixBufferLen (hostname_max : Int) : Nat :=
  (asUsize hostname_max + 1) % USIZE_MOD

/-- The zero-filled POSIX buffer
`vec![0 as u8; (hostname_max as usize) + 1]`. -/
def posixInitialBuffer (os : PosixOS) : List Nat :=
  List.replicate (posixBufferLen os.hostname_max) 0

/-- The zero-filled Windows buffer `vec![0 as wchar_t; buffer_size as usize]`. -/
def windowsInitialBuffer (os : WindowsOS) : List Nat :=
  List.replicate os.buffer_size 0

/-- In-place write of `w` at the start of buffer `buf`: the system call
overwrites the first `w.length` entries (capped at the buffer length) and
leaves the zero-initialised remainder untouched. -/
def writeInto (buf w : List Nat) : List Nat :=
  w.take buf.length ++ buf.drop w.length

/-- The POSIX buffer as it stands after `libc::gethostname` wrote into it. -/
def posixBuffer (os : PosixOS) : List Nat :=
  writeInto (posixInitialBuffer os) os.written

/-- The Windows buffer as it stands after the second `GetComputerNameExW`
call wrote into it. -/
def windowsBuffer (os : WindowsOS) : List Nat :=
  writeInto (windowsInitialBuffer os) os.written

/-- `buffer.iter().position(|&b| b == 0).unwrap_or_else(|| buffer.len())`:
the index of the first zero byte, or the buffer length when there is
none. -/
def scanEnd (buffer : List Nat) : Nat :=
  (buffer.findIdx? (fun b => b == 0)).getD buffer.length

/-- POSIX `try_gethostname`: allocate the zero-filled buffer of size
`(hostname_max as usize) + 1`, let `libc::gethostname` write into it, fail
with the last OS error on a non-zero return code, otherwise truncate the
buffer at the first zero byte (`buffer.resize(end, 0)`) and return it as
an `OsString` via `OsString::from_vec`. -/
def try_gethostname_posix (os : PosixOS) : Except OsError (List Nat) :=
  let buffer := posixBuffer os
  if os.gethostname_rc ≠ 0 then
    Except.error os.last_os_error
  else
    Except.ok (buffer.take (scanEnd buffer))

/-- Windows `try_gethostname`: probe `GetComputerNameExW` with a null
buffer pointer so it stores the required size in `buffer_size` (its return
value is discarded), allocate the zero-filled wide buffer of that size,
call `GetComputerNameExW` again on the real buffer, fail with the last OS
error on a ZERO return code (success is non-zero), otherwise return the
buffer up to the first zero code unit via `OsString::from_wide`. -/
def try_gethostname_windows (os : WindowsOS) : Except OsError (List Nat) :=
  let buffer := windowsBuffer os
  if os.returncode = 0 then
    Except.error os.last_os_error
  else
    Except.ok (buffer.take (scanEnd buffer))

/-- Outcome of the panicking wrapper `gethostname`: a host name, or a
panic carrying its message. -/
inductive GethostnameOutcome where
  | ok (hostname : List Nat)
  | panicked (message : String)
  deriving Repr, DecidableEq

/-- The issue URL both panic messages point to. -/
def issueUrl : String := "https://github.com/lunaryorn/gethostname.rs/issues"

/-- POSIX `gethostname`: delegate to `try_gethostname`, return the host
name on success, panic with the formatted message on failure. -/
def gethostname_posix (os : PosixOS) : GethostnameOutcome :=
  match try_gethostname_posix os with
  | Except.ok hostname => GethostnameOutcome.ok hostname
  | Except.error error =>
      GethostnameOutcome.panicked
        ("gethostname failed: " ++ error.text ++
          "\nPlease report an issue to <" ++ issueUrl ++ ">!")

/-- Windows `gethostname`: delegate to `try_gethostname`, return the host
name on success, panic with the formatted message on failure. -/
def gethostname_windows (os : WindowsOS) : GethostnameOutcome :=
  match try_gethostname_windows os with
  | Except.ok hostname => GethostnameOutcome.ok hostname
  | Except.error error =>
      GethostnameOutcome.panicked
        ("GetComputerNameExW failed to read hostname: " ++ error.text ++
          "\nPlease report this issue to <" ++ issueUrl ++ ">!")

/-- Equality of retrieval outcomes is decidable, so concrete runs of the
model can be checked by evaluation. -/
instance : DecidableEq (Except OsError (List Nat)) := fun a b =>
  match a, b with
  | Except.ok x, Except.ok y =>
      if h : x = y then isTrue (by rw [h]) else isFalse (by simp [h])
  | Except.error x, Except.error y =>
      if h : x = y then isTrue (by rw [h]) else isFalse (by simp [h])
  | Except.ok _, Except.error _ => isFalse (by simp)
  | Except.error _, Except.ok _ => isFalse (by simp)

example : try_gethostname_posix ⟨2, 0, [104, 105, 106], ⟨0, "e"⟩⟩ =
    Except.ok [104, 105, 106] := by decide

example : try_gethostname_posix ⟨64, 0, [104, 105], ⟨0, "e"⟩⟩ =
    Except.ok [104, 105] := by decide

example : try_gethostname_posix ⟨64, -1, [104, 105], ⟨22, "EINVAL"⟩⟩ =
    Except.error ⟨22, "EINVAL"⟩ := by decide

example : try_gethostname_windows ⟨3, 0, 1, [104, 105], ⟨0, "e"⟩⟩ =
    Except.ok [104, 105] := by decide

example : try_gethostname_windows ⟨3, 0, 0, [104, 105], ⟨5, "denied"⟩⟩ =
    Except.error ⟨5, "denied"⟩ := by decide

example : try_gethostname_windows ⟨0, 0, 1, [], ⟨0, "e"⟩⟩ =
    Except.ok [] := by decide

example : gethostname_posix ⟨64, -1, [], ⟨22, "EINVAL"⟩⟩ =
    GethostnameOutcome.panicked
      ("gethostname failed: EINVAL\nPlease report an issue to " ++
        "<https://github.com/lunaryorn/gethostname.rs/issues>!") := by decide

/-! ## Helper lemmas about the buffer scan and the in-place write -/

/-- The system call does not change the buffer's length. -/
theorem writeInto_length (buf w : List Nat) :
    (writeInto buf w).length = buf.length := by
  simp [writeInto]
  omega

/-- `scanEnd` is the first index satisfying the zero test, with the list
length as the not-found default. -/
theorem scanEnd_eq_findIdx (l : List Nat) :
    scanEnd l = l.findIdx (fun b => b == 0) := by
  unfold scanEnd
  rcases h : l.findIdx? (fun b => b == 0) with _ | i
  · rw [List.findIdx?_eq_none_iff] at h
    simp [List.findIdx_eq_length.mpr h]
  · rw [List.findIdx?_eq_some_iff_findIdx_eq] at h
    simp [h.2]

/-- The scan never runs past the end of the buffer. -/
theorem scanEnd_le_length (l : List Nat) : scanEnd l ≤ l.length := by
  rw [scanEnd_eq_findIdx]
  exact List.findIdx_le_length _

/-- Every byte strictly before the scan position is non-zero. -/
theorem ne_zero_of_mem_take_scanEnd {l : List Nat} {b : Nat}
    (hb : b ∈ l.take (scanEnd l)) : b ≠ 0 := by
  rw [List.mem_iff_getElem] at hb
  obtain ⟨i, hi, hib⟩ := hb
  have hlt : i < scanEnd l := by
    simpa using lt_of_lt_of_le hi (by simp)
  rw [List.getElem_take] at hib
  rw [scanEnd_eq_findIdx] at hlt
  have h0 := List.not_of_lt_findIdx hlt
  rw [hib] at h0
  simpa using h0

/-- When the buffer holds no zero byte at all, the scan stops exactly at
the buffer length. -/
theorem scanEnd_of_no_zero {l : List Nat} (h : ∀ b ∈ l, b ≠ 0) :
    scanEnd l = l.length := by
  rw [scanEnd_eq_findIdx]
  exact List.findIdx_eq_length.mpr (by simpa using h)

/-- The byte at the scan position is zero, unless the scan ran to the
buffer's end because there was no zero byte. -/
theorem getElem?_scanEnd (l : List Nat) :
    l[scanEnd l]? = some 0 ∨ scanEnd l = l.length := by
  rcases Nat.lt_or_ge (scanEnd l) l.length with hlt | hge
  · left
    rw [scanEnd_eq_findIdx] at hlt ⊢
    rw [List.getElem?_eq_getElem hlt]
    have hz := @List.findIdx_getElem _ (fun b => b == 0) l hlt
    simpa using hz
  · right
    exact le_antisymm (scanEnd_le_length l) hge

/-! ## Claim theorems -/

/-- C1: On POSIX, when the host-name syscall succeeds, `try_gethostname`
returns exactly the buffer prefix strictly before the first zero byte,
byte for byte: the result is the literal `take` of the post-call buffer at
the scan position, every byte of that prefix is non-zero, and the byte at
the scan position is the first zero (or the scan ran to the buffer's end
because no zero byte exists). -/
theorem posix_success_returns_prefix_before_first_zero (os : PosixOS)
    (h : os.gethostname_rc = 0) :
    try_gethostname_posix os =
      Except.ok ((posixBuffer os).take (scanEnd (posixBuffer os))) ∧
    (∀ b ∈ (posixBuffer os).take (scanEnd (posixBuffer os)), b ≠ 0) ∧
    ((posixBuffer os)[scanEnd (posixBuffer os)]? = some 0 ∨
      scanEnd (posixBuffer os) = (posixBuffer os).length) := by
  refine ⟨?_, fun b hb => ne_zero_of_mem_take_scanEnd hb, getElem?_scanEnd _⟩
  simp [try_gethostname_posix, h]

/-- Witness for C1: a successful POSIX run whose buffer holds
`104, 105, 0, 7, 0, 0, …`; the result is the prefix `[104, 105]`. -/
theorem posix_success_returns_prefix_before_first_zero_witness :
    try_gethostname_posix ⟨64, 0, [104, 105, 0, 7], ⟨0, ""⟩⟩ =
      Except.ok ((posixBuffer ⟨64, 0, [104, 105, 0, 7], ⟨0, ""⟩⟩).take
        (scanEnd (posixBuffer ⟨64, 0, [104, 105, 0, 7], ⟨0, ""⟩⟩))) ∧
    (∀ b ∈ (posixBuffer ⟨64, 0, [104, 105, 0, 7], ⟨0, ""⟩⟩).take
        (scanEnd (posixBuffer ⟨64, 0, [104, 105, 0, 7], ⟨0, ""⟩⟩)), b ≠ 0) ∧
    ((posixBuffer ⟨64, 0, [104, 105, 0, 7], ⟨0, ""⟩⟩)[scanEnd
        (posixBuffer ⟨64, 0, [104, 105, 0, 7], ⟨0, ""⟩⟩)]? = some 0 ∨
      scanEnd (posixBuffer ⟨64, 0, [104, 105, 0, 7], ⟨0, ""⟩⟩) =
        (posixBuffer ⟨64, 0, [104, 105, 0, 7], ⟨0, ""⟩⟩).length) :=
  posix_success_returns_prefix_before_first_zero ⟨64, 0, [104, 105, 0, 7], ⟨0, ""⟩⟩ rfl

/-- C2: on both platforms `try_gethostname` returns an error exactly when
the underlying name-query call reports failure (non-zero return code on
POSIX, zero return code on Windows), and that error is precisely the
captured last OS error; no other error is ever produced. -/
theorem try_gethostname_error_iff_syscall_failure
    (pos : PosixOS) (win : WindowsOS) (e f : OsError) :
    (try_gethostname_posix pos = Except.error e ↔
      pos.gethostname_rc ≠ 0 ∧ e = pos.last_os_error) ∧
    (try_gethostname_windows win = Except.error f ↔
      win.returncode = 0 ∧ f = win.last_os_error) := by
  constructor
  · simp only [try_gethostname_posix]
    split
    · simp_all [eq_comm]
    · simp_all
  · simp only [try_gethostname_windows]
    split
    · simp_all [eq_comm]
    · simp_all

/-- C4: on Windows the probing call's reported size is exactly the length
of the allocated wide buffer (before and after the second call writes into
it), a zero return code from the second call yields the captured OS error,
and a non-zero return code yields the scanned buffer prefix. -/
theorem windows_two_call_protocol (os : WindowsOS) :
    (windowsInitialBuffer os).length = os.buffer_size ∧
    (windowsBuffer os).length = os.buffer_size ∧
    (os.returncode = 0 → try_gethostname_windows os = Except.error os.last_os_error) ∧
    (os.returncode ≠ 0 → try_gethostname_windows os =
      Except.ok ((windowsBuffer os).take (scanEnd (windowsBuffer os)))) := by
  refine ⟨by simp [windowsInitialBuffer], ?_, ?_, ?_⟩
  · rw [windowsBuffer, writeInto_length]
    simp [windowsInitialBuffer]
  · intro h
    simp [try_gethostname_windows, h]
  · intro h
    simp [try_gethostname_windows, h]

/-- C7: `try_gethostname` is total on every oracle: whatever the system
limits query and the name-query call answer, the result is a host name or
the captured OS error — there is no panicking outcome. -/
theorem try_gethostname_never_panics (pos : PosixOS) (win : WindowsOS) :
    ((∃ h, try_gethostname_posix pos = Except.ok h) ∨
      try_gethostname_posix pos = Except.error pos.last_os_error) ∧
    ((∃ h, try_gethostname_windows win = Except.ok h) ∨
      try_gethostname_windows win = Except.error win.last_os_error) := by
  constructor
  · by_cases h : pos.gethostname_rc = 0
    · exact Or.inl ⟨(posixBuffer pos).take (scanEnd (posixBuffer pos)),
        by simp [try_gethostname_posix, h]⟩
    · exact Or.inr (by simp [try_gethostname_posix, h])
  · by_cases h : win.returncode = 0
    · exact Or.inr (by simp [try_gethostname_windows, h])
    · exact Or.inl ⟨(windowsBuffer win).take (scanEnd (windowsBuffer win)),
        by simp [try_gethostname_windows, h]⟩

/-- C3: `gethostname` delegates to `try_gethostname` on both platforms: a
successful result is returned unchanged, and a failure panics with a
message that decomposes around the OS error's rendered text and also
around the issue URL. -/
theorem gethostname_delegates_and_panics (pos : PosixOS) (win : WindowsOS) :
    (∀ h, try_gethostname_posix pos = Except.ok h →
      gethostname_posix pos = GethostnameOutcome.ok h) ∧
    (∀ e, try_gethostname_posix pos = Except.error e →
      ∃ a b, gethostname_posix pos = GethostnameOutcome.panicked (a ++ e.text ++ b) ∧
        ∃ c d, a ++ e.text ++ b = c ++ issueUrl ++ d) ∧
    (∀ h, try_gethostname_windows win = Except.ok h →
      gethostname_windows win = GethostnameOutcome.ok h) ∧
    (∀ e, try_gethostname_windows win = Except.error e →
      ∃ a b, gethostname_windows win = GethostnameOutcome.panicked (a ++ e.text ++ b) ∧
        ∃ c d, a ++ e.text ++ b = c ++ issueUrl ++ d) := by
  refine ⟨?_, ?_, ?_, ?_⟩
  · intro h hh
    simp [gethostname_posix, hh]
  · intro e he
    refine ⟨"gethostname failed: ",
      "\nPlease report an issue to <" ++ issueUrl ++ ">!", ?_, ?_⟩
    · simp [gethostname_posix, he, String.append_assoc]
    · exact ⟨"gethostname failed: " ++ e.text ++ "\nPlease report an issue to <",
        ">!", by simp [String.append_assoc]⟩
  · intro h hh
    simp [gethostname_windows, hh]
  · intro e he
    refine ⟨"GetComputerNameExW failed to read hostname: ",
      "\nPlease report this issue to <" ++ issueUrl ++ ">!", ?_, ?_⟩
    · simp [gethostname_windows, he, String.append_assoc]
    · exact ⟨"GetComputerNameExW failed to read hostname: " ++ e.text ++
        "\nPlease report this issue to <", ">!", by simp [String.append_assoc]⟩

/-- C5: when the post-call buffer holds no zero anywhere, a successful
call returns the entire buffer on either platform: nothing is cut off and
nothing outside the buffer is read. -/
theorem no_terminator_returns_full_buffer (pos : PosixOS) (win : WindowsOS)
    (hp : ∀ b ∈ posixBuffer pos, b ≠ 0)
    (hw : ∀ b ∈ windowsBuffer win, b ≠ 0)
    (hrc : pos.gethostname_rc = 0) (wrc : win.returncode ≠ 0) :
    try_gethostname_posix pos = Except.ok (posixBuffer pos) ∧
    try_gethostname_windows win = Except.ok (windowsBuffer win) := by
  constructor
  · simp [try_gethostname_posix, hrc, scanEnd_of_no_zero hp]
  · simp [try_gethostname_windows, wrc, scanEnd_of_no_zero hw]

/-- Witness for C5: buffers `[104, 105]` with every byte non-zero are
returned whole on both platforms. -/
theorem no_terminator_returns_full_buffer_witness :
    try_gethostname_posix ⟨1, 0, [104, 105], ⟨0, ""⟩⟩ =
      Except.ok (posixBuffer ⟨1, 0, [104, 105], ⟨0, ""⟩⟩) ∧
    try_gethostname_windows ⟨2, 0, 1, [104, 105], ⟨0, ""⟩⟩ =
      Except.ok (windowsBuffer ⟨2, 0, 1, [104, 105], ⟨0, ""⟩⟩) :=
  no_terminator_returns_full_buffer ⟨1, 0, [104, 105], ⟨0, ""⟩⟩
    ⟨2, 0, 1, [104, 105], ⟨0, ""⟩⟩ (by decide) (by decide) (by decide) (by decide)

/-- C6: whenever `sysconf` reports a genuine maximum (non-negative, and
small enough that the `usize` arithmetic cannot wrap), the POSIX buffer
handed to the syscall has length exactly that maximum plus one and is
entirely zero-filled. -/
theorem posix_buffer_zero_filled_max_plus_one (os : PosixOS)
    (h0 : 0 ≤ os.hostname_max) (h1 : os.hostname_max + 1 < 2 ^ 64) :
    (posixInitialBuffer os).length = os.hostname_max.toNat + 1 ∧
    ∀ b ∈ posixInitialBuffer os, b = 0 := by
  constructor
  · simp only [posixInitialBuffer, List.length_replicate, posixBufferLen,
      asUsize, USIZE_MOD]
    omega
  · intro b hb
    exact List.eq_of_mem_replicate hb

/-- Witness for C6: with the Linux value `HOST_NAME_MAX = 64` the buffer
is 65 zero bytes. -/
theorem posix_buffer_zero_filled_max_plus_one_witness :
    (posixInitialBuffer ⟨64, 0, [], ⟨0, ""⟩⟩).length = (64 : Int).toNat + 1 ∧
    ∀ b ∈ posixInitialBuffer ⟨64, 0, [], ⟨0, ""⟩⟩, b = 0 :=
  posix_buffer_zero_filled_max_plus_one ⟨64, 0, [], ⟨0, ""⟩⟩
    (by decide) (by decide)

/-- C8: the POSIX retrieval is a function of the OS responses it observes:
two successful invocations that see the same reported maximum length and
the same bytes written by the name-query call return the same host name,
whatever else (such as the thread's last-error state) differs. -/
theorem try_gethostname_posix_deterministic (os1 os2 : PosixOS)
    (hmax : os1.hostname_max = os2.hostname_max)
    (hw : os1.written = os2.written)
    (h1 : os1.gethostname_rc = 0) (h2 : os2.gethostname_rc = 0) :
    try_gethostname_posix os1 = try_gethostname_posix os2 := by
  simp [try_gethostname_posix, h1, h2, posixBuffer, posixInitialBuffer, hmax, hw]

/-- Witness for C8: two runs that differ only in the last-error state
return the same host name. -/
theorem try_gethostname_posix_deterministic_witness :
    try_gethostname_posix ⟨64, 0, [104], ⟨0, ""⟩⟩ =
      try_gethostname_posix ⟨64, 0, [104], ⟨13, "permission denied"⟩⟩ :=
  try_gethostname_posix_deterministic ⟨64, 0, [104], ⟨0, ""⟩⟩
    ⟨64, 0, [104], ⟨13, "permission denied"⟩⟩ rfl rfl rfl rfl

/-- C9: every host name either platform's `try_gethostname` returns
contains no zero byte and no zero code unit. -/
theorem hostname_contains_no_zero (pos : PosixOS) (win : WindowsOS)
    (h k : List Nat)
    (hp : try_gethostname_posix pos = Except.ok h)
    (hw : try_gethostname_windows win = Except.ok k) :
    (∀ b ∈ h, b ≠ 0) ∧ (∀ b ∈ k, b ≠ 0) := by
  constructor
  · simp only [try_gethostname_posix] at hp
    split at hp
    · simp at hp
    · obtain rfl : (posixBuffer pos).take (scanEnd (posixBuffer pos)) = h := by
        simpa using hp
      exact fun b hb => ne_zero_of_mem_take_scanEnd hb
  · simp only [try_gethostname_windows] at hw
    split at hw
    · simp at hw
    · obtain rfl : (windowsBuffer win).take (scanEnd (windowsBuffer win)) = k := by
        simpa using hw
      exact fun b hb => ne_zero_of_mem_take_scanEnd hb

/-- Witness for C9: a POSIX run returning `[104]` and a Windows run
returning `[104, 105]`; neither result contains a zero. -/
theorem hostname_contains_no_zero_witness :
    (∀ b ∈ ([104] : List Nat), b ≠ 0) ∧
    (∀ b ∈ ([104, 105] : List Nat), b ≠ 0) :=
  hostname_contains_no_zero ⟨2, 0, [104, 0, 99], ⟨0, ""⟩⟩
    ⟨2, 0, 1, [104, 105], ⟨0, ""⟩⟩ [104] [104, 105] (by decide) (by decide)

/-- C10: the probing call's return value plays no part in the Windows
result, and a probe that leaves the size at zero is safe: with a
zero-length buffer a successful second call yields the empty host name. -/
theorem windows_probe_rc_ignored_and_zero_size_safe
    (s : Nat) (r1 r2 rc : Int) (w : List Nat) (e : OsError) :
    try_gethostname_windows ⟨s, r1, rc, w, e⟩ =
      try_gethostname_windows ⟨s, r2, rc, w, e⟩ ∧
    (∀ os : WindowsOS, os.buffer_size = 0 → os.returncode ≠ 0 →
      try_gethostname_windows os = Except.ok []) := by
  constructor
  · rfl
  · intro os h0 hrc
    simp [try_gethostname_windows, hrc, windowsBuffer, windowsInitialBuffer,
      h0, writeInto, scanEnd]
